import Mathlib

/-!
Verification of the Raft3D replicated state machine core
(`internal/fsm/fsm.go` and `pkg/models/models.go`).

The Go store keeps three string-keyed maps (printers, filaments, print
jobs).  We embed each map as an association list with unique keys kept by
`insertKey`/`eraseKey`, observed through `lookupKey`.  Machine `int`
weights are embedded as `Int` (no arithmetic in the source can overflow a
64-bit integer on validated states).  Fallible JSON decoding of command
payloads is embedded as an `Option`-returning decoder over a `Payload`
sum, with a `badP` constructor for bytes that decode into no target.
-/

namespace Raft3D

/-- Printer record (`models.Printer`). -/
structure Printer where
  ID : String
  Company : String
  Model : String
deriving DecidableEq, Repr

/-- Filament record (`models.Filament`); weights are Go `int`.
`FType` embeds the Go field `Type` (a keyword in Lean). -/
structure Filament where
  ID : String
  FType : String
  Color : String
  TotalWeightInGrams : Int
  RemainingWeightInGrams : Int
deriving DecidableEq, Repr

/-- Print-job record (`models.PrintJob`). -/
structure PrintJob where
  ID : String
  PrinterID : String
  FilamentID : String
  Filepath : String
  PrintWeightInGrams : Int
  Status : String
deriving DecidableEq, Repr

def StatusQueued : String := "Queued"
def StatusRunning : String := "Running"
def StatusDone : String := "Done"
def StatusCancelled : String := "Cancelled"

/-- `models.Printer.Validate`: `none` means valid, `some e` the Go error text. -/
def Printer.validate (p : Printer) : Option String :=
  if p.ID = "" then some "printer ID cannot be empty"
  else if p.Company = "" then some "printer company cannot be empty"
  else if p.Model = "" then some "printer model cannot be empty"
  else none

/-- `models.Filament.Validate`. -/
def Filament.validate (f : Filament) : Option String :=
  if f.ID = "" then some "filament ID cannot be empty"
  else if ¬ (f.FType = "PLA" ∨ f.FType = "PETG" ∨ f.FType = "ABS" ∨ f.FType = "TPU") then
    some "filament type must be one of: PLA, PETG, ABS, TPU"
  else if f.Color = "" then some "filament color cannot be empty"
  else if f.TotalWeightInGrams ≤ 0 then some "total weight must be positive"
  else if f.RemainingWeightInGrams < 0 ∨ f.RemainingWeightInGrams > f.TotalWeightInGrams then
    some "remaining weight must be between 0 and total weight"
  else none

/-- `models.PrintJob.Validate`. -/
def PrintJob.validate (j : PrintJob) : Option String :=
  if j.ID = "" then some "print job ID cannot be empty"
  else if j.PrinterID = "" then some "printer ID cannot be empty"
  else if j.FilamentID = "" then some "filament ID cannot be empty"
  else if j.Filepath = "" then some "filepath cannot be empty"
  else if j.PrintWeightInGrams ≤ 0 then some "print weight must be positive"
  else if ¬ (j.Status = StatusQueued ∨ j.Status = StatusRunning ∨
             j.Status = StatusDone ∨ j.Status = StatusCancelled) then
    some "status must be one of: Queued, Running, Done, Cancelled"
  else none

/-- `models.PrintJob.ValidateTransition`: the nested-map test in the source. -/
def PrintJob.validateTransition (j : PrintJob) (newStatus : String) : Option String :=
  if (j.Status = StatusQueued ∧ (newStatus = StatusRunning ∨ newStatus = StatusCancelled)) ∨
     (j.Status = StatusRunning ∧ (newStatus = StatusDone ∨ newStatus = StatusCancelled)) then
    none
  else
    some ("invalid status transition from " ++ j.Status ++ " to " ++ newStatus)

/-! ### String-keyed maps as unique-key association lists -/

def lookupKey {κ α : Type} [DecidableEq κ] (k : κ) : List (κ × α) → Option α
  | [] => none
  | (k', v) :: rest => if k' = k then some v else lookupKey k rest

def eraseKey {κ α : Type} [DecidableEq κ] (k : κ) : List (κ × α) → List (κ × α)
  | [] => []
  | (k', v) :: rest => if k' = k then eraseKey k rest else (k', v) :: eraseKey k rest

def insertKey {κ α : Type} [DecidableEq κ] (k : κ) (v : α) (m : List (κ × α)) :
    List (κ × α) :=
  (k, v) :: eraseKey k m

theorem lookupKey_erase_self {κ α : Type} [DecidableEq κ] (k : κ)
    (m : List (κ × α)) : lookupKey k (eraseKey k m) = none := by
  induction m with
  | nil => rfl
  | cons p rest ih =>
    cases p with
    | mk pk pv =>
      by_cases hk : pk = k
      · simpa [eraseKey, hk] using ih
      · simp [eraseKey, hk, lookupKey, ih]

theorem lookupKey_erase_ne {κ α : Type} [DecidableEq κ] {k id : κ}
    (m : List (κ × α)) (h : ¬ k = id) :
    lookupKey id (eraseKey k m) = lookupKey id m := by
  induction m with
  | nil => rfl
  | cons p rest ih =>
    cases p with
    | mk pk pv =>
      have h' : ¬ id = k := fun hc => h hc.symm
      by_cases hk : pk = k
      · have hne : ¬ pk = id := fun hc => h (hk ▸ hc)
        simp [eraseKey, hk, lookupKey, hne, ih, h]
      · by_cases hid : pk = id
        · simp [eraseKey, hk, hid, lookupKey, h']
        · simp [eraseKey, hk, hid, lookupKey, ih]

theorem lookupKey_insert_self {κ α : Type} [DecidableEq κ] (k : κ) (v : α)
    (m : List (κ × α)) : lookupKey k (insertKey k v m) = some v := by
  simp [insertKey, lookupKey]

theorem lookupKey_insert_ne {κ α : Type} [DecidableEq κ] {k k' : κ} (v : α)
    (m : List (κ × α)) (h : ¬ k = k') :
    lookupKey k' (insertKey k v m) = lookupKey k' m := by
  simp only [insertKey, lookupKey, if_neg h]
  exact lookupKey_erase_ne m h

theorem lookupKey_insert_cases {κ α : Type} [DecidableEq κ] {k id : κ} {v w : α}
    {m : List (κ × α)} (h : lookupKey id (insertKey k v m) = some w) :
    (id = k ∧ w = v) ∨ lookupKey id m = some w := by
  by_cases hk : k = id
  · subst hk
    rw [lookupKey_insert_self] at h
    exact Or.inl ⟨rfl, (Option.some_injective _ h).symm⟩
  · rw [lookupKey_insert_ne v m hk] at h
    exact Or.inr h

theorem lookupKey_erase_sub {κ α : Type} [DecidableEq κ] {k id : κ} {v : α}
    {m : List (κ × α)} (h : lookupKey id (eraseKey k m) = some v) :
    lookupKey id m = some v := by
  by_cases hk : k = id
  · subst hk
    rw [lookupKey_erase_self] at h
    cases h
  · rwa [lookupKey_erase_ne m hk] at h

/-! ### Command model (`fsm.Command`, `fsm.PrintJobStatusChange`) -/

def EntityPrinter : String := "printer"
def EntityFilament : String := "filament"
def EntityPrintJob : String := "print_job"

def OpCreate : String := "create"
def OpUpdate : String := "update"
def OpDelete : String := "delete"

/-- `fsm.PrintJobStatusChange`. -/
structure PrintJobStatusChange where
  ID : String
  Status : String
deriving DecidableEq, Repr

/-- The possible decodings of a command's raw JSON payload.  `badP` stands
for bytes that fail to decode into the target the operation asks for. -/
inductive Payload where
  | printerP (p : Printer)
  | filamentP (f : Filament)
  | printJobP (j : PrintJob)
  | statusP (sc : PrintJobStatusChange)
  | idP (id : String)
  | badP
deriving DecidableEq, Repr

/-- `fsm.Command`: op and entity type are free-form strings on the wire. -/
structure Command where
  op : String
  entityType : String
  payload : Payload
deriving DecidableEq, Repr

def decodePrinter : Payload → Option Printer
  | .printerP p => some p
  | _ => none

def decodeFilament : Payload → Option Filament
  | .filamentP f => some f
  | _ => none

def decodePrintJob : Payload → Option PrintJob
  | .printJobP j => some j
  | _ => none

def decodeStatusChange : Payload → Option PrintJobStatusChange
  | .statusP sc => some sc
  | _ => none

def decodeId : Payload → Option String
  | .idP id => some id
  | _ => none

/-! ### Store (`fsm.Store`) and the Apply engine (`fsm.FSM.Apply`) -/

/-- `fsm.Store`: three string-keyed collections. -/
structure Store where
  printers : List (String × Printer)
  filaments : List (String × Filament)
  printJobs : List (String × PrintJob)
deriving DecidableEq, Repr

/-- `fsm.NewStore`: all three collections empty. -/
def newStore : Store := ⟨[], [], []⟩

def Store.GetPrinter (s : Store) (id : String) : Option Printer :=
  lookupKey id s.printers

def Store.GetFilament (s : Store) (id : String) : Option Filament :=
  lookupKey id s.filaments

def Store.GetPrintJob (s : Store) (id : String) : Option PrintJob :=
  lookupKey id s.printJobs

/-- `fsm.FSM.applyPrinterCommand`: result is (new store, Go error or nil). -/
def applyPrinterCommand (s : Store) (cmd : Command) : Store × Option String :=
  if cmd.op = OpCreate then
    match decodePrinter cmd.payload with
    | none => (s, some "failed to unmarshal printer")
    | some printer =>
      match printer.validate with
      | some e => (s, some e)
      | none => ({ s with printers := insertKey printer.ID printer s.printers }, none)
  else if cmd.op = OpUpdate then
    match decodePrinter cmd.payload with
    | none => (s, some "failed to unmarshal printer")
    | some printer =>
      match printer.validate with
      | some e => (s, some e)
      | none =>
        match lookupKey printer.ID s.printers with
        | none => (s, some ("printer not found: " ++ printer.ID))
        | some _ => ({ s with printers := insertKey printer.ID printer s.printers }, none)
  else if cmd.op = OpDelete then
    match decodeId cmd.payload with
    | none => (s, some "failed to unmarshal ID")
    | some id =>
      match lookupKey id s.printers with
      | none => (s, some ("printer not found: " ++ id))
      | some _ => ({ s with printers := eraseKey id s.printers }, none)
  else (s, some ("unknown printer operation: " ++ cmd.op))

/-- `fsm.FSM.applyFilamentCommand`. -/
def applyFilamentCommand (s : Store) (cmd : Command) : Store × Option String :=
  if cmd.op = OpCreate then
    match decodeFilament cmd.payload with
    | none => (s, some "failed to unmarshal filament")
    | some filament =>
      match filament.validate with
      | some e => (s, some e)
      | none => ({ s with filaments := insertKey filament.ID filament s.filaments }, none)
  else if cmd.op = OpUpdate then
    match decodeFilament cmd.payload with
    | none => (s, some "failed to unmarshal filament")
    | some filament =>
      match filament.validate with
      | some e => (s, some e)
      | none =>
        match lookupKey filament.ID s.filaments with
        | none => (s, some ("filament not found: " ++ filament.ID))
        | some _ => ({ s with filaments := insertKey filament.ID filament s.filaments }, none)
  else if cmd.op = OpDelete then
    match decodeId cmd.payload with
    | none => (s, some "failed to unmarshal ID")
    | some id =>
      match lookupKey id s.filaments with
      | none => (s, some ("filament not found: " ++ id))
      | some _ => ({ s with filaments := eraseKey id s.filaments }, none)
  else (s, some ("unknown filament operation: " ++ cmd.op))

/-- `fsm.FSM.applyPrintJobCommand`.  Create forces `Status := Queued` before
validation; Update is a status-only transition that, on `Done`, deducts the
job's weight from the referenced filament, clamped at zero. -/
def applyPrintJobCommand (s : Store) (cmd : Command) : Store × Option String :=
  if cmd.op = OpCreate then
    match decodePrintJob cmd.payload with
    | none => (s, some "failed to unmarshal print job")
    | some pj =>
      match ({ pj with Status := StatusQueued } : PrintJob).validate with
      | some e => (s, some e)
      | none =>
        match lookupKey pj.PrinterID s.printers with
        | none => (s, some ("printer not found: " ++ pj.PrinterID))
        | some _ =>
          match lookupKey pj.FilamentID s.filaments with
          | none => (s, some ("filament not found: " ++ pj.FilamentID))
          | some filament =>
            if pj.PrintWeightInGrams > filament.RemainingWeightInGrams then
              (s, some ("insufficient filament: required " ++
                toString pj.PrintWeightInGrams ++ " g, available " ++
                toString filament.RemainingWeightInGrams ++ " g"))
            else
              ({ s with printJobs :=
                  insertKey pj.ID { pj with Status := StatusQueued } s.printJobs }, none)
  else if cmd.op = OpUpdate then
    match decodeStatusChange cmd.payload with
    | none => (s, some "failed to unmarshal status change")
    | some sc =>
      match lookupKey sc.ID s.printJobs with
      | none => (s, some ("print job not found: " ++ sc.ID))
      | some printJob =>
        match printJob.validateTransition sc.Status with
        | some e => (s, some e)
        | none =>
          if sc.Status = StatusDone then
            match lookupKey printJob.FilamentID s.filaments with
            | none => (s, some ("filament not found: " ++ printJob.FilamentID))
            | some filament =>
              ({ s with
                  filaments := insertKey printJob.FilamentID
                    { filament with RemainingWeightInGrams :=
                        if filament.RemainingWeightInGrams - printJob.PrintWeightInGrams < 0
                        then 0
                        else filament.RemainingWeightInGrams - printJob.PrintWeightInGrams }
                    s.filaments,
                  printJobs := (insertKey sc.ID { printJob with Status := sc.Status }
                    s.printJobs) }, none)
          else
            ({ s with printJobs := (insertKey sc.ID { printJob with Status := sc.Status }
                s.printJobs) }, none)
  else if cmd.op = OpDelete then
    match decodeId cmd.payload with
    | none => (s, some "failed to unmarshal ID")
    | some id =>
      match lookupKey id s.printJobs with
      | none => (s, some ("print job not found: " ++ id))
      | some _ => ({ s with printJobs := eraseKey id s.printJobs }, none)
  else (s, some ("unknown print job operation: " ++ cmd.op))

/-- `fsm.FSM.Apply`: `none` input models raft log bytes that fail to
unmarshal into a `Command` envelope at all. -/
def fsmApply (s : Store) (msg : Option Command) : Store × Option String :=
  match msg with
  | none => (s, some "failed to unmarshal command")
  | some cmd =>
    if cmd.entityType = EntityPrinter then applyPrinterCommand s cmd
    else if cmd.entityType = EntityFilament then applyFilamentCommand s cmd
    else if cmd.entityType = EntityPrintJob then applyPrintJobCommand s cmd
    else (s, some ("unknown entity type: " ++ cmd.entityType))

/-- Fold `fsmApply` over a committed command sequence, in commit order. -/
def applyAll (s : Store) : List (Option Command) → Store
  | [] => s
  | c :: cs => applyAll (fsmApply s c).1 cs

/-! ### Snapshot / Persist / Restore (`fsm.FSM.Snapshot`, `fsm.Snapshot.Persist`,
`fsm.FSM.Restore`)

`Persist` marshals the snapshot with `encoding/json`; `Restore` decodes the
byte stream back.  We embed the marshalled bytes as a JSON value tree
(`JVal`) built from the same fields, in the Go structs' field order, and the
decoder as a partial inverse that can fail on any other shape. -/

/-- `fsm.Snapshot`: a deep copy of the three collections.  The Go code
copies every record by value; with value semantics the copy is the data. -/
structure Snapshot where
  Printers : List (String × Printer)
  Filaments : List (String × Filament)
  PrintJobs : List (String × PrintJob)
deriving DecidableEq, Repr

def fsmSnapshot (s : Store) : Snapshot :=
  ⟨s.printers, s.filaments, s.printJobs⟩

/-- JSON values, as produced by `json.Marshal` on the snapshot. -/
inductive JVal where
  | jstr (s : String)
  | jint (n : Int)
  | jobj (fields : List (String × JVal))

def encPrinter (p : Printer) : JVal :=
  .jobj [("id", .jstr p.ID), ("company", .jstr p.Company), ("model", .jstr p.Model)]

def decPrinterJ : JVal → Option Printer
  | .jobj [("id", .jstr i), ("company", .jstr c), ("model", .jstr m)] => some ⟨i, c, m⟩
  | _ => none

def encFilament (f : Filament) : JVal :=
  .jobj [("id", .jstr f.ID), ("type", .jstr f.FType), ("color", .jstr f.Color),
         ("total_weight_in_grams", .jint f.TotalWeightInGrams),
         ("remaining_weight_in_grams", .jint f.RemainingWeightInGrams)]

def decFilamentJ : JVal → Option Filament
  | .jobj [("id", .jstr i), ("type", .jstr t), ("color", .jstr c),
           ("total_weight_in_grams", .jint tw),
           ("remaining_weight_in_grams", .jint rw)] => some ⟨i, t, c, tw, rw⟩
  | _ => none

def encPrintJob (j : PrintJob) : JVal :=
  .jobj [("id", .jstr j.ID), ("printer_id", .jstr j.PrinterID),
         ("filament_id", .jstr j.FilamentID), ("filepath", .jstr j.Filepath),
         ("print_weight_in_grams", .jint j.PrintWeightInGrams),
         ("status", .jstr j.Status)]

def decPrintJobJ : JVal → Option PrintJob
  | .jobj [("id", .jstr i), ("printer_id", .jstr p),
           ("filament_id", .jstr f), ("filepath", .jstr fp),
           ("print_weight_in_grams", .jint w),
           ("status", .jstr st)] => some ⟨i, p, f, fp, w, st⟩
  | _ => none

/-- A Go `map[string]*T` marshals to a JSON object, one field per key. -/
def encEntries {α : Type} (enc : α → JVal) (m : List (String × α)) :
    List (String × JVal) :=
  m.map (fun kv => (kv.1, enc kv.2))

def decEntries {α : Type} (dec : JVal → Option α) :
    List (String × JVal) → Option (List (String × α))
  | [] => some []
  | (k, v) :: rest =>
    match dec v, decEntries dec rest with
    | some a, some ms => some ((k, a) :: ms)
    | _, _ => none

/-- `fsm.Snapshot.Persist`: the marshalled byte stream, as a JSON tree. -/
def snapshotPersist (snap : Snapshot) : JVal :=
  .jobj [("Printers", .jobj (encEntries encPrinter snap.Printers)),
         ("Filaments", .jobj (encEntries encFilament snap.Filaments)),
         ("PrintJobs", .jobj (encEntries encPrintJob snap.PrintJobs))]

def decSnapshot : JVal → Option Snapshot
  | .jobj [("Printers", .jobj ps), ("Filaments", .jobj fs), ("PrintJobs", .jobj js)] =>
    match decEntries decPrinterJ ps, decEntries decFilamentJ fs,
          decEntries decPrintJobJ js with
    | some ps', some fs', some js' => some ⟨ps', fs', js'⟩
    | _, _, _ => none
  | _ => none

/-- `fsm.FSM.Restore`: decode the stream; on failure report the error and
leave the previous store untouched, otherwise replace the collections
wholesale. -/
def fsmRestore (s : Store) (data : JVal) : Store × Option String :=
  match decSnapshot data with
  | none => (s, some "failed to decode snapshot")
  | some snap => (⟨snap.Printers, snap.Filaments, snap.PrintJobs⟩, none)

theorem decEntries_encEntries {α : Type} (enc : α → JVal) (dec : JVal → Option α)
    (h : ∀ a, dec (enc a) = some a) (m : List (String × α)) :
    decEntries dec (encEntries enc m) = some m := by
  induction m with
  | nil => rfl
  | cons kv rest ih =>
    cases kv with
    | mk k v => simp [encEntries, decEntries, h v, ih, encEntries] at ih ⊢

theorem decPrinterJ_encPrinter (p : Printer) : decPrinterJ (encPrinter p) = some p := rfl

theorem decFilamentJ_encFilament (f : Filament) :
    decFilamentJ (encFilament f) = some f := rfl

theorem decPrintJobJ_encPrintJob (j : PrintJob) :
    decPrintJobJ (encPrintJob j) = some j := rfl

theorem decSnapshot_persist (snap : Snapshot) :
    decSnapshot (snapshotPersist snap) = some snap := by
  simp [snapshotPersist, decSnapshot,
    decEntries_encEntries encPrinter decPrinterJ decPrinterJ_encPrinter,
    decEntries_encEntries encFilament decFilamentJ decFilamentJ_encFilament,
    decEntries_encEntries encPrintJob decPrintJobJ decPrintJobJ_encPrintJob]

/-! ### Pointer-level model of the filament collection

The Go store maps ids to pointers (`map[string]*models.Filament`);
`Store.GetFilament` hands back the stored pointer itself, and the `Done`
transition in `applyPrintJobCommand` writes the weight deduction through
that same pointer (`filament.RemainingWeightInGrams -= ...`).  To reason
about aliasing we give the filament collection an explicit heap: the map
holds addresses, the heap holds the records. -/

structure HeapStore where
  filamentAddrs : List (String × Nat)
  filamentHeap : List (Nat × Filament)
  printJobs : List (String × PrintJob)
deriving DecidableEq, Repr

/-- `Store.GetFilament` at pointer level: returns the live stored pointer. -/
def HeapStore.getFilamentAddr (hs : HeapStore) (id : String) : Option Nat :=
  lookupKey id hs.filamentAddrs

/-- Dereference a filament pointer in the heap. -/
def HeapStore.deref (hs : HeapStore) (a : Nat) : Option Filament :=
  lookupKey a hs.filamentHeap

/-- The Update branch of `fsm.FSM.applyPrintJobCommand` at pointer level:
the `Done` deduction is an in-place write through the pointer held in the
filament map, exactly as `filament.RemainingWeightInGrams -= ...` is in Go.
(A map hit whose address is missing from the heap cannot arise from the Go
runtime; it is reported with the same not-found error for totality.) -/
def applyPrintJobUpdateHeap (hs : HeapStore) (sc : PrintJobStatusChange) :
    HeapStore × Option String :=
  match lookupKey sc.ID hs.printJobs with
  | none => (hs, some ("print job not found: " ++ sc.ID))
  | some printJob =>
    match printJob.validateTransition sc.Status with
    | some e => (hs, some e)
    | none =>
      if sc.Status = StatusDone then
        match lookupKey printJob.FilamentID hs.filamentAddrs with
        | none => (hs, some ("filament not found: " ++ printJob.FilamentID))
        | some a =>
          match lookupKey a hs.filamentHeap with
          | none => (hs, some ("filament not found: " ++ printJob.FilamentID))
          | some filament =>
            ({ hs with
                filamentHeap := insertKey a
                  { filament with RemainingWeightInGrams :=
                      if filament.RemainingWeightInGrams - printJob.PrintWeightInGrams < 0
                      then 0
                      else filament.RemainingWeightInGrams - printJob.PrintWeightInGrams }
                  hs.filamentHeap,
                printJobs := (insertKey sc.ID { printJob with Status := sc.Status }
                  hs.printJobs) }, none)
      else
        ({ hs with printJobs := (insertKey sc.ID { printJob with Status := sc.Status }
            hs.printJobs) }, none)

/-! ## Claims -/

/-- Every branch of `fsmApply` either leaves the store untouched or
reports no error. -/
theorem fsmApply_frame_or_ok (s : Store) (msg : Option Command) :
    (fsmApply s msg).1 = s ∨ (fsmApply s msg).2 = none := by
  cases msg with
  | none => exact Or.inl rfl
  | some cmd =>
    unfold fsmApply applyPrinterCommand applyFilamentCommand applyPrintJobCommand
    repeat' split
    all_goals simp

/-- C1: `Apply` is a deterministic function of the current store and the
command; applying one ordered command sequence to two independent fresh
stores yields identical final state. -/
theorem applyAll_deterministic (cmds : List (Option Command)) (s₁ s₂ : Store)
    (h₁ : s₁ = newStore) (h₂ : s₂ = newStore) :
    applyAll s₁ cmds = applyAll s₂ cmds := by
  subst h₁; subst h₂; rfl

theorem applyAll_deterministic_witness :
    applyAll newStore [some ⟨OpCreate, EntityPrinter, .printerP ⟨"p1", "Prusa", "MK3"⟩⟩] =
      applyAll newStore [some ⟨OpCreate, EntityPrinter, .printerP ⟨"p1", "Prusa", "MK3"⟩⟩] :=
  applyAll_deterministic _ newStore newStore rfl rfl

/-- C2: whenever `Apply` reports an error (decode, validation, not-found,
insufficient-filament or invalid-transition), the store afterwards equals
the store before: no entity is inserted, removed or modified on any error
path. -/
theorem apply_error_leaves_store_unchanged (s : Store) (msg : Option Command)
    (e : String) (h : (fsmApply s msg).2 = some e) : (fsmApply s msg).1 = s := by
  rcases fsmApply_frame_or_ok s msg with h1 | h1
  · exact h1
  · rw [h1] at h
    cases h

theorem apply_error_leaves_store_unchanged_witness :
    (fsmApply newStore (some ⟨OpCreate, EntityPrinter, .printerP ⟨"", "", ""⟩⟩)).2 =
      some "printer ID cannot be empty" ∧
    (fsmApply newStore (some ⟨OpCreate, EntityPrinter, .printerP ⟨"", "", ""⟩⟩)).1 =
      newStore :=
  ⟨rfl, apply_error_leaves_store_unchanged newStore _ "printer ID cannot be empty" rfl⟩

/-- C10: a command whose entity type is not printer/filament/print_job, or
whose op is not create/update/delete, is rejected with an error naming the
unknown type or operation, and the store (all three collections) is
unchanged. -/
theorem unknown_type_or_op_rejected :
    (∀ (s : Store) (cmd : Command), ¬ cmd.entityType = EntityPrinter →
      ¬ cmd.entityType = EntityFilament → ¬ cmd.entityType = EntityPrintJob →
      fsmApply s (some cmd) = (s, some ("unknown entity type: " ++ cmd.entityType))) ∧
    (∀ (s : Store) (cmd : Command), cmd.entityType = EntityPrinter →
      ¬ cmd.op = OpCreate → ¬ cmd.op = OpUpdate → ¬ cmd.op = OpDelete →
      fsmApply s (some cmd) = (s, some ("unknown printer operation: " ++ cmd.op))) ∧
    (∀ (s : Store) (cmd : Command), cmd.entityType = EntityFilament →
      ¬ cmd.op = OpCreate → ¬ cmd.op = OpUpdate → ¬ cmd.op = OpDelete →
      fsmApply s (some cmd) = (s, some ("unknown filament operation: " ++ cmd.op))) ∧
    (∀ (s : Store) (cmd : Command), cmd.entityType = EntityPrintJob →
      ¬ cmd.op = OpCreate → ¬ cmd.op = OpUpdate → ¬ cmd.op = OpDelete →
      fsmApply s (some cmd) = (s, some ("unknown print job operation: " ++ cmd.op))) := by
  refine ⟨?_, ?_, ?_, ?_⟩
  · intro s cmd h1 h2 h3
    simp [fsmApply, h1, h2, h3]
  · intro s cmd h1 h2 h3 h4
    simp [fsmApply, h1, EntityPrinter, applyPrinterCommand, h2, h3, h4]
  · intro s cmd h1 h2 h3 h4
    simp [fsmApply, h1, EntityPrinter, EntityFilament, applyFilamentCommand, h2, h3, h4]
  · intro s cmd h1 h2 h3 h4
    simp [fsmApply, h1, EntityPrinter, EntityFilament, EntityPrintJob,
      applyPrintJobCommand, h2, h3, h4]

theorem unknown_type_or_op_rejected_witness :
    fsmApply newStore (some ⟨OpCreate, "widget", .idP "x"⟩) =
      (newStore, some "unknown entity type: widget") ∧
    fsmApply newStore (some ⟨"upsert", EntityPrinter, .idP "x"⟩) =
      (newStore, some "unknown printer operation: upsert") ∧
    fsmApply newStore (some ⟨"upsert", EntityFilament, .idP "x"⟩) =
      (newStore, some "unknown filament operation: upsert") ∧
    fsmApply newStore (some ⟨"upsert", EntityPrintJob, .idP "x"⟩) =
      (newStore, some "unknown print job operation: upsert") :=
  ⟨unknown_type_or_op_rejected.1 newStore _ (by decide) (by decide) (by decide),
   unknown_type_or_op_rejected.2.1 newStore _ rfl (by decide) (by decide) (by decide),
   unknown_type_or_op_rejected.2.2.1 newStore _ rfl (by decide) (by decide) (by decide),
   unknown_type_or_op_rejected.2.2.2 newStore _ rfl (by decide) (by decide) (by decide)⟩

/-- C8: a valid Printer or Filament Create is inserted and succeeds even
when an entity with that id already exists (silent overwrite, no
"already exists" error), while Update on the same kinds reports not-found
when the id is absent. -/
theorem create_overwrites_update_requires_existing :
    (∀ (s : Store) (p : Printer) (old : Printer), p.validate = none →
      lookupKey p.ID s.printers = some old →
      fsmApply s (some ⟨OpCreate, EntityPrinter, .printerP p⟩) =
        ({ s with printers := insertKey p.ID p s.printers }, none)) ∧
    (∀ (s : Store) (f : Filament) (old : Filament), f.validate = none →
      lookupKey f.ID s.filaments = some old →
      fsmApply s (some ⟨OpCreate, EntityFilament, .filamentP f⟩) =
        ({ s with filaments := insertKey f.ID f s.filaments }, none)) ∧
    (∀ (s : Store) (p : Printer), p.validate = none →
      lookupKey p.ID s.printers = none →
      fsmApply s (some ⟨OpUpdate, EntityPrinter, .printerP p⟩) =
        (s, some ("printer not found: " ++ p.ID))) ∧
    (∀ (s : Store) (f : Filament), f.validate = none →
      lookupKey f.ID s.filaments = none →
      fsmApply s (some ⟨OpUpdate, EntityFilament, .filamentP f⟩) =
        (s, some ("filament not found: " ++ f.ID))) := by
  refine ⟨?_, ?_, ?_, ?_⟩
  · intro s p old hv _
    simp [fsmApply, EntityPrinter, applyPrinterCommand, OpCreate, decodePrinter, hv]
  · intro s f old hv _
    simp [fsmApply, EntityPrinter, EntityFilament, applyFilamentCommand, OpCreate,
      decodeFilament, hv]
  · intro s p hv hnone
    simp [fsmApply, EntityPrinter, applyPrinterCommand, OpCreate, OpUpdate,
      decodePrinter, hv, hnone]
  · intro s f hv hnone
    simp [fsmApply, EntityPrinter, EntityFilament, applyFilamentCommand, OpCreate,
      OpUpdate, decodeFilament, hv, hnone]

theorem create_overwrites_update_requires_existing_witness :
    fsmApply ⟨[("p1", ⟨"p1", "Old", "M1"⟩)], [], []⟩
        (some ⟨OpCreate, EntityPrinter, .printerP ⟨"p1", "Prusa", "MK3"⟩⟩) =
      (⟨[("p1", ⟨"p1", "Prusa", "MK3"⟩)], [], []⟩, none) ∧
    fsmApply newStore (some ⟨OpUpdate, EntityPrinter, .printerP ⟨"p1", "Prusa", "MK3"⟩⟩) =
      (newStore, some "printer not found: p1") := by
  constructor
  · have h := create_overwrites_update_requires_existing.1
      ⟨[("p1", ⟨"p1", "Old", "M1"⟩)], [], []⟩ ⟨"p1", "Prusa", "MK3"⟩ ⟨"p1", "Old", "M1"⟩
      rfl rfl
    simpa [insertKey, eraseKey] using h
  · exact create_overwrites_update_requires_existing.2.2.1 newStore
      ⟨"p1", "Prusa", "MK3"⟩ rfl rfl

/-- C4: a PrintJob Create whose weight exceeds the referenced filament's
remaining weight is rejected with the insufficient-filament error naming
required and available grams, leaving the whole store (job absent,
filament unchanged) as it was; with weight within the remaining amount and
all other checks passing, the job is inserted and the filament collection
is untouched. -/
theorem print_job_create_filament_check :
    (∀ (s : Store) (pj : PrintJob) (pr : Printer) (f : Filament),
      ({ pj with Status := StatusQueued } : PrintJob).validate = none →
      lookupKey pj.PrinterID s.printers = some pr →
      lookupKey pj.FilamentID s.filaments = some f →
      pj.PrintWeightInGrams > f.RemainingWeightInGrams →
      fsmApply s (some ⟨OpCreate, EntityPrintJob, .printJobP pj⟩) =
        (s, some ("insufficient filament: required " ++ toString pj.PrintWeightInGrams ++
          " g, available " ++ toString f.RemainingWeightInGrams ++ " g"))) ∧
    (∀ (s : Store) (pj : PrintJob) (pr : Printer) (f : Filament),
      ({ pj with Status := StatusQueued } : PrintJob).validate = none →
      lookupKey pj.PrinterID s.printers = some pr →
      lookupKey pj.FilamentID s.filaments = some f →
      pj.PrintWeightInGrams ≤ f.RemainingWeightInGrams →
      fsmApply s (some ⟨OpCreate, EntityPrintJob, .printJobP pj⟩) =
        ({ s with printJobs := (insertKey pj.ID { pj with Status := StatusQueued }
            s.printJobs) }, none)) := by
  constructor
  · intro s pj pr f hv hpr hf hw
    simp [fsmApply, EntityPrinter, EntityFilament, EntityPrintJob, applyPrintJobCommand,
      OpCreate, decodePrintJob, hv, hpr, hf, hw]
  · intro s pj pr f hv hpr hf hw
    have hw' : ¬ pj.PrintWeightInGrams > f.RemainingWeightInGrams := not_lt.mpr hw
    simp [fsmApply, EntityPrinter, EntityFilament, EntityPrintJob, applyPrintJobCommand,
      OpCreate, decodePrintJob, hv, hpr, hf, hw']

theorem print_job_create_filament_check_witness :
    fsmApply ⟨[("p1", ⟨"p1", "Prusa", "MK3"⟩)], [("f1", ⟨"f1", "PLA", "Red", 1000, 50⟩)], []⟩
        (some ⟨OpCreate, EntityPrintJob, .printJobP ⟨"j1", "p1", "f1", "/a.gcode", 100, ""⟩⟩) =
      (⟨[("p1", ⟨"p1", "Prusa", "MK3"⟩)], [("f1", ⟨"f1", "PLA", "Red", 1000, 50⟩)], []⟩,
        some ("insufficient filament: required " ++ toString (100 : Int) ++
          " g, available " ++ toString (50 : Int) ++ " g")) ∧
    fsmApply ⟨[("p1", ⟨"p1", "Prusa", "MK3"⟩)], [("f1", ⟨"f1", "PLA", "Red", 1000, 50⟩)], []⟩
        (some ⟨OpCreate, EntityPrintJob, .printJobP ⟨"j1", "p1", "f1", "/a.gcode", 40, ""⟩⟩) =
      (⟨[("p1", ⟨"p1", "Prusa", "MK3"⟩)], [("f1", ⟨"f1", "PLA", "Red", 1000, 50⟩)],
          [("j1", ⟨"j1", "p1", "f1", "/a.gcode", 40, StatusQueued⟩)]⟩, none) := by
  constructor
  · exact print_job_create_filament_check.1
      ⟨[("p1", ⟨"p1", "Prusa", "MK3"⟩)], [("f1", ⟨"f1", "PLA", "Red", 1000, 50⟩)], []⟩
      ⟨"j1", "p1", "f1", "/a.gcode", 100, ""⟩
      ⟨"p1", "Prusa", "MK3"⟩ ⟨"f1", "PLA", "Red", 1000, 50⟩ rfl rfl rfl (by decide)
  · have h := print_job_create_filament_check.2
      ⟨[("p1", ⟨"p1", "Prusa", "MK3"⟩)], [("f1", ⟨"f1", "PLA", "Red", 1000, 50⟩)], []⟩
      ⟨"j1", "p1", "f1", "/a.gcode", 40, ""⟩
      ⟨"p1", "Prusa", "MK3"⟩ ⟨"f1", "PLA", "Red", 1000, 50⟩ rfl rfl rfl (by decide)
    simpa [insertKey, eraseKey] using h

/-- The four transition pairs the spec names as allowed
(Queued→Running, Queued→Cancelled, Running→Done, Running→Cancelled). -/
def specAllowedTransition (cur new : String) : Prop :=
  (cur = StatusQueued ∧ new = StatusRunning) ∨
  (cur = StatusQueued ∧ new = StatusCancelled) ∨
  (cur = StatusRunning ∧ new = StatusDone) ∨
  (cur = StatusRunning ∧ new = StatusCancelled)

theorem validateTransition_none_of {j : PrintJob} {newStatus : String}
    (h : specAllowedTransition j.Status newStatus) :
    j.validateTransition newStatus = none := by
  unfold specAllowedTransition at h
  unfold PrintJob.validateTransition
  rw [if_pos (by tauto)]

theorem validateTransition_some_of {j : PrintJob} {newStatus : String}
    (h : ¬ specAllowedTransition j.Status newStatus) :
    j.validateTransition newStatus =
      some ("invalid status transition from " ++ j.Status ++ " to " ++ newStatus) := by
  unfold specAllowedTransition at h
  unfold PrintJob.validateTransition
  rw [if_neg (by tauto)]

/-- Command sequence reaching a store whose job `j1` is `Running` while its
referenced filament `f1` has been deleted (deletes do not cascade). -/
def danglingFilamentCmds : List (Option Command) :=
  [some ⟨OpCreate, EntityPrinter, .printerP ⟨"p1", "Prusa", "MK3"⟩⟩,
   some ⟨OpCreate, EntityFilament, .filamentP ⟨"f1", "PLA", "Red", 1000, 1000⟩⟩,
   some ⟨OpCreate, EntityPrintJob, .printJobP ⟨"j1", "p1", "f1", "/a.gcode", 100, StatusQueued⟩⟩,
   some ⟨OpUpdate, EntityPrintJob, .statusP ⟨"j1", StatusRunning⟩⟩,
   some ⟨OpDelete, EntityFilament, .idP "f1"⟩]

/-- C3 counterexample: in a reachable store, an Update on an existing job
along the allowed pair Running→Done does not succeed — it fails with a
filament-not-found error because the referenced filament was deleted — so
the update does not succeed for exactly the four allowed pairs. -/
theorem job_update_allowed_pair_can_fail :
    specAllowedTransition StatusRunning StatusDone ∧
    (Store.GetPrintJob (applyAll newStore danglingFilamentCmds) "j1").map
      (fun j => j.Status) = some StatusRunning ∧
    (fsmApply (applyAll newStore danglingFilamentCmds)
        (some ⟨OpUpdate, EntityPrintJob, .statusP ⟨"j1", StatusDone⟩⟩)).2 =
      some "filament not found: f1" :=
  ⟨Or.inr (Or.inr (Or.inl ⟨rfl, rfl⟩)), by decide, by decide⟩

/-- C3 (amended): an Update on an existing job succeeds iff the pair
(current, requested) is one of Queued→Running, Queued→Cancelled,
Running→Done, Running→Cancelled and, when the requested status is Done,
the referenced filament exists; every pair outside the four is rejected
with the invalid-transition error naming both statuses, store unchanged. -/
theorem job_update_transition_characterization (s : Store)
    (sc : PrintJobStatusChange) (j : PrintJob)
    (hj : lookupKey sc.ID s.printJobs = some j) :
    ((fsmApply s (some ⟨OpUpdate, EntityPrintJob, .statusP sc⟩)).2 = none ↔
      specAllowedTransition j.Status sc.Status ∧
        (sc.Status = StatusDone → (lookupKey j.FilamentID s.filaments).isSome)) ∧
    (¬ specAllowedTransition j.Status sc.Status →
      fsmApply s (some ⟨OpUpdate, EntityPrintJob, .statusP sc⟩) =
        (s, some ("invalid status transition from " ++ j.Status ++ " to " ++ sc.Status))) := by
  by_cases hsp : specAllowedTransition j.Status sc.Status
  · have hvt := validateTransition_none_of hsp
    by_cases hdone : sc.Status = StatusDone
    · have hvt' : j.validateTransition StatusDone = none := hdone ▸ hvt
      have hsp' : specAllowedTransition j.Status StatusDone := hdone ▸ hsp
      cases hfl : lookupKey j.FilamentID s.filaments with
      | none =>
        simp [fsmApply, EntityPrinter, EntityFilament, EntityPrintJob,
          applyPrintJobCommand, OpCreate, OpUpdate, decodeStatusChange, hj, hvt',
          hdone, hfl, hsp']
      | some f =>
        simp [fsmApply, EntityPrinter, EntityFilament, EntityPrintJob,
          applyPrintJobCommand, OpCreate, OpUpdate, decodeStatusChange, hj, hvt',
          hdone, hfl, hsp']
    · simp [fsmApply, EntityPrinter, EntityFilament, EntityPrintJob,
        applyPrintJobCommand, OpCreate, OpUpdate, decodeStatusChange, hj, hvt,
        hdone, hsp]
  · have hvt := validateTransition_some_of hsp
    simp [fsmApply, EntityPrinter, EntityFilament, EntityPrintJob,
      applyPrintJobCommand, OpCreate, OpUpdate, decodeStatusChange, hj, hvt, hsp]

theorem job_update_transition_characterization_witness :
    (fsmApply ⟨[], [], [("j1", ⟨"j1", "p1", "f1", "/a.gcode", 100, StatusQueued⟩)]⟩
        (some ⟨OpUpdate, EntityPrintJob, .statusP ⟨"j1", StatusRunning⟩⟩)).2 = none := by
  have h := job_update_transition_characterization
    ⟨[], [], [("j1", ⟨"j1", "p1", "f1", "/a.gcode", 100, StatusQueued⟩)]⟩
    ⟨"j1", StatusRunning⟩ ⟨"j1", "p1", "f1", "/a.gcode", 100, StatusQueued⟩ rfl
  exact h.1.mpr ⟨Or.inl ⟨rfl, rfl⟩, fun hc => absurd hc (by decide)⟩

/-- C5: a successful Update to Done from Running deducts exactly the job's
weight from the referenced filament, clamped at zero; filaments are never
changed by a print-job Create, by a non-Done Update (in particular Cancel),
or by a Delete; and a job already Done rejects every further Update, so
the deduction can never happen twice for the same job. -/
theorem done_transition_deduction :
    (∀ (s : Store) (sc : PrintJobStatusChange) (j : PrintJob) (f : Filament),
      lookupKey sc.ID s.printJobs = some j → j.Status = StatusRunning →
      sc.Status = StatusDone → lookupKey j.FilamentID s.filaments = some f →
      fsmApply s (some ⟨OpUpdate, EntityPrintJob, .statusP sc⟩) =
        ({ s with
            filaments := insertKey j.FilamentID
              { f with RemainingWeightInGrams :=
                  if f.RemainingWeightInGrams - j.PrintWeightInGrams < 0 then 0
                  else f.RemainingWeightInGrams - j.PrintWeightInGrams } s.filaments,
            printJobs := (insertKey sc.ID { j with Status := StatusDone } s.printJobs) },
          none)) ∧
    (∀ (s : Store) (pl : Payload),
      (fsmApply s (some ⟨OpCreate, EntityPrintJob, pl⟩)).1.filaments = s.filaments) ∧
    (∀ (s : Store) (sc : PrintJobStatusChange), ¬ sc.Status = StatusDone →
      (fsmApply s (some ⟨OpUpdate, EntityPrintJob, .statusP sc⟩)).1.filaments =
        s.filaments) ∧
    (∀ (s : Store) (pl : Payload),
      (fsmApply s (some ⟨OpDelete, EntityPrintJob, pl⟩)).1.filaments = s.filaments) ∧
    (∀ (s : Store) (sc : PrintJobStatusChange) (j : PrintJob),
      lookupKey sc.ID s.printJobs = some j → j.Status = StatusDone →
      fsmApply s (some ⟨OpUpdate, EntityPrintJob, .statusP sc⟩) =
        (s, some ("invalid status transition from " ++ j.Status ++ " to " ++
          sc.Status))) := by
  refine ⟨?_, ?_, ?_, ?_, ?_⟩
  · intro s sc j f hj hrun hdone hfl
    have hsp : specAllowedTransition j.Status sc.Status :=
      Or.inr (Or.inr (Or.inl ⟨hrun, hdone⟩))
    have hvt' : j.validateTransition StatusDone = none :=
      hdone ▸ validateTransition_none_of hsp
    simp [fsmApply, EntityPrinter, EntityFilament, EntityPrintJob,
      applyPrintJobCommand, OpCreate, OpUpdate, decodeStatusChange, hj, hvt',
      hdone, hfl]
  · intro s pl
    simp only [fsmApply, EntityPrinter, EntityFilament, EntityPrintJob,
      applyPrintJobCommand, OpCreate, OpUpdate, OpDelete]
    repeat' split
    all_goals first | rfl | simp_all
  · intro s sc hnd
    simp only [fsmApply, EntityPrinter, EntityFilament, EntityPrintJob,
      applyPrintJobCommand, OpCreate, OpUpdate, OpDelete, decodeStatusChange]
    repeat' split
    all_goals rfl
  · intro s pl
    simp only [fsmApply, EntityPrinter, EntityFilament, EntityPrintJob,
      applyPrintJobCommand, OpCreate, OpUpdate, OpDelete]
    repeat' split
    all_goals first | rfl | simp_all
  · intro s sc j hj hdone
    have hsp : ¬ specAllowedTransition j.Status sc.Status := by
      rw [hdone]
      intro hsp
      rcases hsp with ⟨h1, _⟩ | ⟨h1, _⟩ | ⟨h1, _⟩ | ⟨h1, _⟩ <;>
        exact absurd h1 (by decide)
    have hvt := validateTransition_some_of hsp
    simp [fsmApply, EntityPrinter, EntityFilament, EntityPrintJob,
      applyPrintJobCommand, OpCreate, OpUpdate, decodeStatusChange, hj, hvt]

theorem done_transition_deduction_witness :
    fsmApply ⟨[("p1", ⟨"p1", "Prusa", "MK3"⟩)], [("f1", ⟨"f1", "PLA", "Red", 1000, 50⟩)],
        [("j1", ⟨"j1", "p1", "f1", "/a.gcode", 100, StatusRunning⟩)]⟩
        (some ⟨OpUpdate, EntityPrintJob, .statusP ⟨"j1", StatusDone⟩⟩) =
      (⟨[("p1", ⟨"p1", "Prusa", "MK3"⟩)], [("f1", ⟨"f1", "PLA", "Red", 1000, 0⟩)],
        [("j1", ⟨"j1", "p1", "f1", "/a.gcode", 100, StatusDone⟩)]⟩, none) ∧
    (fsmApply ⟨[], [("f1", ⟨"f1", "PLA", "Red", 1000, 50⟩)],
        [("j1", ⟨"j1", "p1", "f1", "/a.gcode", 100, StatusQueued⟩)]⟩
        (some ⟨OpUpdate, EntityPrintJob, .statusP ⟨"j1", StatusCancelled⟩⟩)).1.filaments =
      [("f1", ⟨"f1", "PLA", "Red", 1000, 50⟩)] ∧
    fsmApply ⟨[], [],
        [("j1", ⟨"j1", "p1", "f1", "/a.gcode", 100, StatusDone⟩)]⟩
        (some ⟨OpUpdate, EntityPrintJob, .statusP ⟨"j1", StatusRunning⟩⟩) =
      (⟨[], [], [("j1", ⟨"j1", "p1", "f1", "/a.gcode", 100, StatusDone⟩)]⟩,
        some ("invalid status transition from " ++ StatusDone ++ " to " ++
          StatusRunning)) := by
  refine ⟨?_, ?_, ?_⟩
  · have h := done_transition_deduction.1
      ⟨[("p1", ⟨"p1", "Prusa", "MK3"⟩)], [("f1", ⟨"f1", "PLA", "Red", 1000, 50⟩)],
        [("j1", ⟨"j1", "p1", "f1", "/a.gcode", 100, StatusRunning⟩)]⟩
      ⟨"j1", StatusDone⟩ ⟨"j1", "p1", "f1", "/a.gcode", 100, StatusRunning⟩
      ⟨"f1", "PLA", "Red", 1000, 50⟩ rfl rfl rfl rfl
    simpa [insertKey, eraseKey] using h
  · exact done_transition_deduction.2.2.1
      ⟨[], [("f1", ⟨"f1", "PLA", "Red", 1000, 50⟩)],
        [("j1", ⟨"j1", "p1", "f1", "/a.gcode", 100, StatusQueued⟩)]⟩
      ⟨"j1", StatusCancelled⟩ (by decide)
  · exact done_transition_deduction.2.2.2.2
      ⟨[], [], [("j1", ⟨"j1", "p1", "f1", "/a.gcode", 100, StatusDone⟩)]⟩
      ⟨"j1", StatusRunning⟩ ⟨"j1", "p1", "f1", "/a.gcode", 100, StatusDone⟩ rfl rfl

/-! ### The filament weight invariant (C6) -/

/-- Range conditions on one filament record. -/
def filamentOK (f : Filament) : Prop :=
  0 ≤ f.RemainingWeightInGrams ∧ f.RemainingWeightInGrams ≤ f.TotalWeightInGrams ∧
    0 < f.TotalWeightInGrams

/-- Inductive invariant: every stored filament is in range, and every
stored print job has positive weight (needed so the Done deduction cannot
push the remaining weight above the total). -/
def storeInv (s : Store) : Prop :=
  (∀ id f, lookupKey id s.filaments = some f → filamentOK f) ∧
  (∀ id j, lookupKey id s.printJobs = some j → 0 < j.PrintWeightInGrams)

theorem filamentOK_of_validate {f : Filament} (h : f.validate = none) :
    filamentOK f := by
  unfold Filament.validate at h
  repeat' split at h
  all_goals try cases h
  unfold filamentOK
  omega

theorem printJob_validate_weight {j : PrintJob} (h : j.validate = none) :
    0 < j.PrintWeightInGrams := by
  unfold PrintJob.validate at h
  repeat' split at h
  all_goals try cases h
  omega

theorem storeInv_insert_filament {s : Store} {f : Filament} (h : storeInv s)
    (hf : filamentOK f) (k : String) :
    storeInv { s with filaments := insertKey k f s.filaments } := by
  constructor
  · intro id g hg
    rcases lookupKey_insert_cases hg with ⟨_, rfl⟩ | hg'
    · exact hf
    · exact h.1 id g hg'
  · intro id j hj
    exact h.2 id j hj

theorem storeInv_erase_filament {s : Store} (h : storeInv s) (k : String) :
    storeInv { s with filaments := eraseKey k s.filaments } := by
  constructor
  · intro id g hg
    exact h.1 id g (lookupKey_erase_sub hg)
  · intro id j hj
    exact h.2 id j hj

theorem storeInv_insert_job {s : Store} {j : PrintJob} (h : storeInv s)
    (hw : 0 < j.PrintWeightInGrams) (k : String) :
    storeInv { s with printJobs := insertKey k j s.printJobs } := by
  constructor
  · intro id g hg
    exact h.1 id g hg
  · intro id j' hj'
    rcases lookupKey_insert_cases hj' with ⟨_, rfl⟩ | hj''
    · exact hw
    · exact h.2 id j' hj''

theorem storeInv_erase_job {s : Store} (h : storeInv s) (k : String) :
    storeInv { s with printJobs := eraseKey k s.printJobs } := by
  constructor
  · intro id g hg
    exact h.1 id g hg
  · intro id j hj
    exact h.2 id j (lookupKey_erase_sub hj)

theorem applyPrinter_preserves_inv (s : Store) (cmd : Command) (h : storeInv s) :
    storeInv (applyPrinterCommand s cmd).1 := by
  unfold applyPrinterCommand
  repeat' split
  all_goals
    exact ⟨fun id g hg => h.1 id g hg, fun id j hj => h.2 id j hj⟩

theorem applyFilament_preserves_inv (s : Store) (cmd : Command) (h : storeInv s) :
    storeInv (applyFilamentCommand s cmd).1 := by
  unfold applyFilamentCommand
  by_cases hc : cmd.op = OpCreate
  · rw [if_pos hc]
    split
    · exact h
    · split
      · exact h
      · next hval => exact storeInv_insert_filament h (filamentOK_of_validate hval) _
  · rw [if_neg hc]
    by_cases hu : cmd.op = OpUpdate
    · rw [if_pos hu]
      split
      · exact h
      · split
        · exact h
        · next hval =>
          split
          · exact h
          · exact storeInv_insert_filament h (filamentOK_of_validate hval) _
    · rw [if_neg hu]
      by_cases hd : cmd.op = OpDelete
      · rw [if_pos hd]
        split
        · exact h
        · split
          · exact h
          · exact storeInv_erase_filament h _
      · rw [if_neg hd]
        exact h

theorem applyPrintJob_preserves_inv (s : Store) (cmd : Command) (h : storeInv s) :
    storeInv (applyPrintJobCommand s cmd).1 := by
  unfold applyPrintJobCommand
  by_cases hc : cmd.op = OpCreate
  · rw [if_pos hc]
    split
    · exact h
    · split
      · exact h
      · next hval =>
        split
        · exact h
        · split
          · exact h
          · split
            · exact h
            · exact storeInv_insert_job h (printJob_validate_weight hval) _
  · rw [if_neg hc]
    by_cases hu : cmd.op = OpUpdate
    · rw [if_pos hu]
      split
      · exact h
      · next sc hdec =>
        split
        · exact h
        · next pj hj =>
          split
          · exact h
          · split
            · split
              · exact h
              · next f hfl =>
                have hf : filamentOK f := h.1 _ _ hfl
                have hwj : 0 < pj.PrintWeightInGrams := h.2 _ _ hj
                refine ⟨?_, ?_⟩
                · intro id g hg
                  rcases lookupKey_insert_cases hg with ⟨_, rfl⟩ | hg'
                  · unfold filamentOK at hf ⊢
                    dsimp only
                    split <;> omega
                  · exact h.1 id g hg'
                · intro id j' hj'
                  rcases lookupKey_insert_cases hj' with ⟨_, rfl⟩ | hj''
                  · exact hwj
                  · exact h.2 id j' hj''
            · exact @storeInv_insert_job s { pj with Status := sc.Status } h
                (show 0 < pj.PrintWeightInGrams from h.2 sc.ID pj hj) _
    · rw [if_neg hu]
      by_cases hd : cmd.op = OpDelete
      · rw [if_pos hd]
        split
        · exact h
        · split
          · exact h
          · exact storeInv_erase_job h _
      · rw [if_neg hd]
        exact h

theorem fsmApply_preserves_inv (s : Store) (msg : Option Command)
    (h : storeInv s) : storeInv (fsmApply s msg).1 := by
  cases msg with
  | none => exact h
  | some cmd =>
    simp only [fsmApply]
    by_cases h1 : cmd.entityType = EntityPrinter
    · rw [if_pos h1]
      exact applyPrinter_preserves_inv s cmd h
    · rw [if_neg h1]
      by_cases h2 : cmd.entityType = EntityFilament
      · rw [if_pos h2]
        exact applyFilament_preserves_inv s cmd h
      · rw [if_neg h2]
        by_cases h3 : cmd.entityType = EntityPrintJob
        · rw [if_pos h3]
          exact applyPrintJob_preserves_inv s cmd h
        · rw [if_neg h3]
          exact h

theorem applyAll_preserves_inv (cmds : List (Option Command)) (s : Store)
    (h : storeInv s) : storeInv (applyAll s cmds) := by
  induction cmds generalizing s with
  | nil => exact h
  | cons c cs ih => exact ih _ (fsmApply_preserves_inv s c h)

theorem storeInv_newStore : storeInv newStore := by
  constructor
  · intro id f hf
    cases hf
  · intro id j hj
    cases hj

/-- C6: in every store reachable from a fresh store by a sequence of
Applies, each filament satisfies 0 ≤ remaining ≤ total and total > 0:
Create/Update validate the range before inserting and the Done deduction
clamps at zero. -/
theorem filament_weight_invariant (cmds : List (Option Command)) (id : String)
    (f : Filament)
    (h : lookupKey id (applyAll newStore cmds).filaments = some f) :
    0 ≤ f.RemainingWeightInGrams ∧ f.RemainingWeightInGrams ≤ f.TotalWeightInGrams ∧
      0 < f.TotalWeightInGrams :=
  (applyAll_preserves_inv cmds newStore storeInv_newStore).1 id f h

theorem filament_weight_invariant_witness :
    lookupKey "f1" (applyAll newStore
        [some ⟨OpCreate, EntityFilament, .filamentP ⟨"f1", "PLA", "Red", 1000, 800⟩⟩]).filaments =
      some ⟨"f1", "PLA", "Red", 1000, 800⟩ ∧
    (0 ≤ (800 : Int) ∧ (800 : Int) ≤ (1000 : Int) ∧ (0 : Int) < (1000 : Int)) :=
  ⟨rfl, filament_weight_invariant
    [some ⟨OpCreate, EntityFilament, .filamentP ⟨"f1", "PLA", "Red", 1000, 800⟩⟩]
    "f1" ⟨"f1", "PLA", "Red", 1000, 800⟩ rfl⟩

/-- C7: taking a snapshot of any store, persisting it and restoring from
the persisted bytes reproduces an observably identical store — here the
restored store is equal to the snapshotted one, whatever store the
restoring node held before. -/
theorem snapshot_persist_restore_roundtrip (s prev : Store) :
    fsmRestore prev (snapshotPersist (fsmSnapshot s)) = (s, none) := by
  simp [fsmRestore, decSnapshot_persist, fsmSnapshot]

/-- Concrete heap store: filament `f1` lives at address 0 with 100 g
remaining; job `j1` (40 g, Running) references it. -/
def aliasHeapStore : HeapStore :=
  ⟨[("f1", 0)], [(0, ⟨"f1", "PLA", "Red", 1000, 100⟩)],
   [("j1", ⟨"j1", "p1", "f1", "/a.gcode", 40, StatusRunning⟩)]⟩

/-- C9 counterexample: `GetFilament` returns the live pointer held in the
map, and the Done transition writes the deduction through that same
pointer, so a filament value read before the Apply does change afterwards
— reads are aliases, not copies. -/
theorem get_filament_alias_counterexample :
    HeapStore.getFilamentAddr aliasHeapStore "f1" = some 0 ∧
    HeapStore.deref aliasHeapStore 0 = some ⟨"f1", "PLA", "Red", 1000, 100⟩ ∧
    (applyPrintJobUpdateHeap aliasHeapStore ⟨"j1", StatusDone⟩).2 = none ∧
    ¬ HeapStore.deref (applyPrintJobUpdateHeap aliasHeapStore ⟨"j1", StatusDone⟩).1 0 =
        HeapStore.deref aliasHeapStore 0 := by
  refine ⟨rfl, rfl, rfl, ?_⟩
  decide

/-- C9 (amended): read accessors hand out the stored pointers themselves;
after a successful Done transition, a pointer previously obtained through
`GetFilament` dereferences to the in-place deducted record, not to the
value read earlier. -/
theorem get_filament_alias_observes_done (hs : HeapStore)
    (sc : PrintJobStatusChange) (j : PrintJob) (a : Nat) (f : Filament)
    (hj : lookupKey sc.ID hs.printJobs = some j)
    (hvt : j.validateTransition sc.Status = none)
    (hdone : sc.Status = StatusDone)
    (ha : HeapStore.getFilamentAddr hs j.FilamentID = some a)
    (hf : HeapStore.deref hs a = some f) :
    (applyPrintJobUpdateHeap hs sc).2 = none ∧
    HeapStore.deref (applyPrintJobUpdateHeap hs sc).1 a =
      some { f with RemainingWeightInGrams :=
        if f.RemainingWeightInGrams - j.PrintWeightInGrams < 0 then 0
        else f.RemainingWeightInGrams - j.PrintWeightInGrams } := by
  unfold HeapStore.getFilamentAddr at ha
  unfold HeapStore.deref at hf
  have hvt' : j.validateTransition StatusDone = none := hdone ▸ hvt
  unfold applyPrintJobUpdateHeap HeapStore.deref
  simp [hj, hvt', hdone, ha, hf, lookupKey_insert_self]

theorem get_filament_alias_observes_done_witness :
    (applyPrintJobUpdateHeap aliasHeapStore ⟨"j1", StatusDone⟩).2 = none ∧
    HeapStore.deref (applyPrintJobUpdateHeap aliasHeapStore ⟨"j1", StatusDone⟩).1 0 =
      some ⟨"f1", "PLA", "Red", 1000,
        if (100 : Int) - 40 < 0 then 0 else (100 : Int) - 40⟩ :=
  get_filament_alias_observes_done aliasHeapStore ⟨"j1", StatusDone⟩
    ⟨"j1", "p1", "f1", "/a.gcode", 40, StatusRunning⟩ 0 ⟨"f1", "PLA", "Red", 1000, 100⟩
    rfl rfl rfl rfl rfl

end Raft3D
